import Mathlib

/-!
Verification of the payroll calculator in `src/salary_calculator.py`.

The program's calculation core consists of:
* three constant tables `TAX_BRACKETS`, `TAX_RATES`, `TAX_DEDUCTIONS` (lines 6-8);
* `calculate_insurance(base, rates)` (lines 46-54), computing each of the six
  statutory contribution amounts as `base * rate / 100`;
* `calculate_tax(taxable_income)` (lines 57-61), a linear scan of the bracket
  upper bounds `for i in range(1, len(TAX_BRACKETS))` returning
  `taxable_income * TAX_RATES[i-1] - TAX_DEDUCTIONS[i-1]` at the first `i`
  with `taxable_income <= TAX_BRACKETS[i]`, and falling through to
  `taxable_income * TAX_RATES[-1] - TAX_DEDUCTIONS[-1]`;
* the pipeline (lines 72-77): `total_insurance = sum(insurance.values())`,
  `taxable_income = max(0, base_salary - total_insurance - 5000 - special_deduction)`,
  `income_tax = calculate_tax(taxable_income) if taxable_income > 0 else 0`,
  `net_salary = base_salary - total_insurance - income_tax`;
* two display-side bracket lookups (lines 94-97) recomputing the applicable
  rate and quick deduction with `next(...)` generators over the same table.

Python numbers are modelled as rationals `ℚ`: every quantity the program
manipulates (salaries, percentage rates, the table constants) is a decimal
literal or derived from them by `+ - * /`, so `ℚ` is an exact model of the
real-number semantics the source's formulas denote.
-/

namespace SalaryCalculator

/-- `TAX_BRACKETS` (line 6): the bracket upper bounds. -/
def TAX_BRACKETS : List ℚ := [0, 3000, 12000, 25000, 35000, 55000, 80000]

/-- `TAX_RATES` (line 7): the marginal rates. -/
def TAX_RATES : List ℚ := [3/100, 10/100, 20/100, 25/100, 30/100, 35/100, 45/100]

/-- `TAX_DEDUCTIONS` (line 8): the quick deductions. -/
def TAX_DEDUCTIONS : List ℚ := [0, 210, 1410, 2660, 4410, 7160, 15160]

/-- The dictionary of six insurance rates passed to `calculate_insurance`
(lines 64-71 build it from the six sliders). -/
structure RateSet where
  pension : ℚ
  medical : ℚ
  unemployment : ℚ
  injury : ℚ
  maternity : ℚ
  housing : ℚ

/-- The dictionary returned by `calculate_insurance` (lines 47-54); the
source's dictionary keys are the Chinese category names, rendered here in
English in insertion order: pension (养老保险), medical (医疗保险),
unemployment (失业保险), injury (工伤保险), maternity (生育保险),
housing fund (住房公积金). -/
structure InsuranceBreakdown where
  pensionAmount : ℚ
  medicalAmount : ℚ
  unemploymentAmount : ℚ
  injuryAmount : ℚ
  maternityAmount : ℚ
  housingAmount : ℚ

/-- `calculate_insurance(base, rates)` (lines 46-54). -/
def calculate_insurance (base : ℚ) (rates : RateSet) : InsuranceBreakdown :=
  { pensionAmount := base * rates.pension / 100
    medicalAmount := base * rates.medical / 100
    unemploymentAmount := base * rates.unemployment / 100
    injuryAmount := base * rates.injury / 100
    maternityAmount := base * rates.maternity / 100
    housingAmount := base * rates.housing / 100 }

/-- `insurance.values()`: the six amounts in dictionary insertion order. -/
def InsuranceBreakdown.values (b : InsuranceBreakdown) : List ℚ :=
  [b.pensionAmount, b.medicalAmount, b.unemploymentAmount,
   b.injuryAmount, b.maternityAmount, b.housingAmount]

/-- `calculate_tax(taxable_income)` (lines 57-61): scan
`i = 1 .. len(TAX_BRACKETS) - 1` for the first `i` with
`taxable_income <= TAX_BRACKETS[i]` and return
`taxable_income * TAX_RATES[i-1] - TAX_DEDUCTIONS[i-1]`; if the loop falls
through, return `taxable_income * TAX_RATES[-1] - TAX_DEDUCTIONS[-1]`. -/
def calculate_tax (taxable_income : ℚ) : ℚ :=
  match (List.range' 1 (TAX_BRACKETS.length - 1)).find?
      (fun i => decide (taxable_income ≤ TAX_BRACKETS.getD i 0)) with
  | some i => taxable_income * TAX_RATES.getD (i - 1) 0 - TAX_DEDUCTIONS.getD (i - 1) 0
  | none => taxable_income * TAX_RATES.getLastD 0 - TAX_DEDUCTIONS.getLastD 0

/-- `total_insurance = sum(insurance.values())` (lines 72-73). -/
def total_insurance (base : ℚ) (rates : RateSet) : ℚ :=
  ((calculate_insurance base rates).values).sum

/-- `taxable_income = max(0, base_salary - total_insurance - 5000 - special_deduction)`
(line 75). -/
def taxable_income (base : ℚ) (rates : RateSet) (special_deduction : ℚ) : ℚ :=
  max 0 (base - total_insurance base rates - 5000 - special_deduction)

/-- `income_tax = calculate_tax(taxable_income) if taxable_income > 0 else 0`
(line 76). -/
def income_tax (base : ℚ) (rates : RateSet) (special_deduction : ℚ) : ℚ :=
  if taxable_income base rates special_deduction > 0 then
    calculate_tax (taxable_income base rates special_deduction)
  else 0

/-- `net_salary = base_salary - total_insurance - income_tax` (line 77). -/
def net_salary (base : ℚ) (rates : RateSet) (special_deduction : ℚ) : ℚ :=
  base - total_insurance base rates - income_tax base rates special_deduction

/-- The display-side rate lookup (lines 94-95):
`next((TAX_RATES[i-1] for i in range(1, len(TAX_BRACKETS)) if taxable_income <= TAX_BRACKETS[i]), TAX_RATES[-1])`. -/
def tax_rate (ti : ℚ) : ℚ :=
  match (List.range' 1 (TAX_BRACKETS.length - 1)).find?
      (fun i => decide (ti ≤ TAX_BRACKETS.getD i 0)) with
  | some i => TAX_RATES.getD (i - 1) 0
  | none => TAX_RATES.getLastD 0

/-- The display-side quick-deduction lookup (lines 96-97):
`next((TAX_DEDUCTIONS[i-1] for i in range(1, len(TAX_BRACKETS)) if taxable_income <= TAX_BRACKETS[i]), TAX_DEDUCTIONS[-1])`. -/
def tax_deduction (ti : ℚ) : ℚ :=
  match (List.range' 1 (TAX_BRACKETS.length - 1)).find?
      (fun i => decide (ti ≤ TAX_BRACKETS.getD i 0)) with
  | some i => TAX_DEDUCTIONS.getD (i - 1) 0
  | none => TAX_DEDUCTIONS.getLastD 0

/-- Closed form of `calculate_tax` as the nested conditional the loop denotes. -/
lemma calculate_tax_eq (x : ℚ) :
    calculate_tax x =
      if x ≤ 3000 then x * (3/100) - 0
      else if x ≤ 12000 then x * (10/100) - 210
      else if x ≤ 25000 then x * (20/100) - 1410
      else if x ≤ 35000 then x * (25/100) - 2660
      else if x ≤ 55000 then x * (30/100) - 4410
      else if x ≤ 80000 then x * (35/100) - 7160
      else x * (45/100) - 15160 := by
  by_cases h1 : x ≤ 3000
  · simp [calculate_tax, TAX_BRACKETS, TAX_RATES, TAX_DEDUCTIONS,
      List.range', List.find?, List.getD, h1]
  by_cases h2 : x ≤ 12000
  · simp [calculate_tax, TAX_BRACKETS, TAX_RATES, TAX_DEDUCTIONS,
      List.range', List.find?, List.getD, h1, h2]
  by_cases h3 : x ≤ 25000
  · simp [calculate_tax, TAX_BRACKETS, TAX_RATES, TAX_DEDUCTIONS,
      List.range', List.find?, List.getD, h1, h2, h3]
  by_cases h4 : x ≤ 35000
  · simp [calculate_tax, TAX_BRACKETS, TAX_RATES, TAX_DEDUCTIONS,
      List.range', List.find?, List.getD, h1, h2, h3, h4]
  by_cases h5 : x ≤ 55000
  · simp [calculate_tax, TAX_BRACKETS, TAX_RATES, TAX_DEDUCTIONS,
      List.range', List.find?, List.getD, h1, h2, h3, h4, h5]
  by_cases h6 : x ≤ 80000
  · simp [calculate_tax, TAX_BRACKETS, TAX_RATES, TAX_DEDUCTIONS,
      List.range', List.find?, List.getD, h1, h2, h3, h4, h5, h6]
  · simp [calculate_tax, TAX_BRACKETS, TAX_RATES, TAX_DEDUCTIONS,
      List.range', List.find?, List.getD, List.getLastD, h1, h2, h3, h4, h5, h6]

/-- Closed form of the display-side rate lookup. -/
lemma tax_rate_eq (x : ℚ) :
    tax_rate x =
      if x ≤ 3000 then 3/100
      else if x ≤ 12000 then 10/100
      else if x ≤ 25000 then 20/100
      else if x ≤ 35000 then 25/100
      else if x ≤ 55000 then 30/100
      else if x ≤ 80000 then 35/100
      else 45/100 := by
  by_cases h1 : x ≤ 3000
  · simp [tax_rate, TAX_BRACKETS, TAX_RATES, List.range', List.find?, List.getD, h1]
  by_cases h2 : x ≤ 12000
  · simp [tax_rate, TAX_BRACKETS, TAX_RATES, List.range', List.find?, List.getD, h1, h2]
  by_cases h3 : x ≤ 25000
  · simp [tax_rate, TAX_BRACKETS, TAX_RATES, List.range', List.find?, List.getD, h1, h2, h3]
  by_cases h4 : x ≤ 35000
  · simp [tax_rate, TAX_BRACKETS, TAX_RATES, List.range', List.find?, List.getD,
      h1, h2, h3, h4]
  by_cases h5 : x ≤ 55000
  · simp [tax_rate, TAX_BRACKETS, TAX_RATES, List.range', List.find?, List.getD,
      h1, h2, h3, h4, h5]
  by_cases h6 : x ≤ 80000
  · simp [tax_rate, TAX_BRACKETS, TAX_RATES, List.range', List.find?, List.getD,
      h1, h2, h3, h4, h5, h6]
  · simp [tax_rate, TAX_BRACKETS, TAX_RATES, List.range', List.find?, List.getD,
      List.getLastD, h1, h2, h3, h4, h5, h6]

/-- Closed form of the display-side quick-deduction lookup. -/
lemma tax_deduction_eq (x : ℚ) :
    tax_deduction x =
      if x ≤ 3000 then 0
      else if x ≤ 12000 then 210
      else if x ≤ 25000 then 1410
      else if x ≤ 35000 then 2660
      else if x ≤ 55000 then 4410
      else if x ≤ 80000 then 7160
      else 15160 := by
  by_cases h1 : x ≤ 3000
  · simp [tax_deduction, TAX_BRACKETS, TAX_DEDUCTIONS, List.range', List.find?,
      List.getD, h1]
  by_cases h2 : x ≤ 12000
  · simp [tax_deduction, TAX_BRACKETS, TAX_DEDUCTIONS, List.range', List.find?,
      List.getD, h1, h2]
  by_cases h3 : x ≤ 25000
  · simp [tax_deduction, TAX_BRACKETS, TAX_DEDUCTIONS, List.range', List.find?,
      List.getD, h1, h2, h3]
  by_cases h4 : x ≤ 35000
  · simp [tax_deduction, TAX_BRACKETS, TAX_DEDUCTIONS, List.range', List.find?,
      List.getD, h1, h2, h3, h4]
  by_cases h5 : x ≤ 55000
  · simp [tax_deduction, TAX_BRACKETS, TAX_DEDUCTIONS, List.range', List.find?,
      List.getD, h1, h2, h3, h4, h5]
  by_cases h6 : x ≤ 80000
  · simp [tax_deduction, TAX_BRACKETS, TAX_DEDUCTIONS, List.range', List.find?,
      List.getD, h1, h2, h3, h4, h5, h6]
  · simp [tax_deduction, TAX_BRACKETS, TAX_DEDUCTIONS, List.range', List.find?,
      List.getD, List.getLastD, h1, h2, h3, h4, h5, h6]

/-- C1: for every base salary, rate set and special deduction, the pipeline
computes `taxableIncome = max(0, base − totalInsurance − 5000 − special)`,
then `incomeTax = calculate_tax taxableIncome` when `taxableIncome > 0` and
`0` otherwise, then `netSalary = base − totalInsurance − incomeTax`, with the
standard deduction fixed at exactly `5000`. -/
theorem pipeline_composition (base : ℚ) (rates : RateSet) (special : ℚ) :
    taxable_income base rates special
        = max 0 (base - total_insurance base rates - 5000 - special) ∧
    income_tax base rates special
        = (if taxable_income base rates special > 0
            then calculate_tax (taxable_income base rates special) else 0) ∧
    net_salary base rates special
        = base - total_insurance base rates - income_tax base rates special :=
  ⟨rfl, rfl, rfl⟩

/-- C2: `calculate_tax` scans the bracket bounds 3000, 12000, 25000, 35000,
55000, 80000 in ascending order and applies the rate and quick deduction of
index `i − 1` at the first bound `≥ x`; above 80000 it applies
`x × 0.45 − 15160` unconditionally; in particular
`calculate_tax 100000 = 29840`. -/
theorem calculate_tax_bracket_scan (x : ℚ) :
    (calculate_tax x =
      if x ≤ 3000 then x * (3/100) - 0
      else if x ≤ 12000 then x * (10/100) - 210
      else if x ≤ 25000 then x * (20/100) - 1410
      else if x ≤ 35000 then x * (25/100) - 2660
      else if x ≤ 55000 then x * (30/100) - 4410
      else if x ≤ 80000 then x * (35/100) - 7160
      else x * (45/100) - 15160) ∧
    calculate_tax 100000 = 29840 :=
  ⟨calculate_tax_eq x, by norm_num [calculate_tax_eq]⟩

/-- C3: for base salary `b ≥ 0` and six non-negative rates,
`calculate_insurance` returns a breakdown whose six amounts are each
`b × rate / 100`, and every amount is non-negative; the function is a pure
total function with no error case. -/
theorem calculate_insurance_spec (base : ℚ) (rates : RateSet)
    (hb : 0 ≤ base) (hp : 0 ≤ rates.pension) (hm : 0 ≤ rates.medical)
    (hu : 0 ≤ rates.unemployment) (hi : 0 ≤ rates.injury)
    (hmt : 0 ≤ rates.maternity) (hh : 0 ≤ rates.housing) :
    ((calculate_insurance base rates).pensionAmount = base * rates.pension / 100 ∧
     (calculate_insurance base rates).medicalAmount = base * rates.medical / 100 ∧
     (calculate_insurance base rates).unemploymentAmount
        = base * rates.unemployment / 100 ∧
     (calculate_insurance base rates).injuryAmount = base * rates.injury / 100 ∧
     (calculate_insurance base rates).maternityAmount
        = base * rates.maternity / 100 ∧
     (calculate_insurance base rates).housingAmount = base * rates.housing / 100) ∧
    (0 ≤ (calculate_insurance base rates).pensionAmount ∧
     0 ≤ (calculate_insurance base rates).medicalAmount ∧
     0 ≤ (calculate_insurance base rates).unemploymentAmount ∧
     0 ≤ (calculate_insurance base rates).injuryAmount ∧
     0 ≤ (calculate_insurance base rates).maternityAmount ∧
     0 ≤ (calculate_insurance base rates).housingAmount) := by
  refine ⟨⟨rfl, rfl, rfl, rfl, rfl, rfl⟩, ?_, ?_, ?_, ?_, ?_, ?_⟩ <;>
    simp only [calculate_insurance] <;> positivity

/-- Witness for C3 at base 15000 and the Shanghai preset rates. -/
theorem calculate_insurance_spec_witness :
    ((calculate_insurance 15000 ⟨8, 2, 0.5, 0.2, 0, 7⟩).pensionAmount
        = 15000 * (8:ℚ) / 100 ∧
     (calculate_insurance 15000 ⟨8, 2, 0.5, 0.2, 0, 7⟩).medicalAmount
        = 15000 * (2:ℚ) / 100 ∧
     (calculate_insurance 15000 ⟨8, 2, 0.5, 0.2, 0, 7⟩).unemploymentAmount
        = 15000 * (0.5:ℚ) / 100 ∧
     (calculate_insurance 15000 ⟨8, 2, 0.5, 0.2, 0, 7⟩).injuryAmount
        = 15000 * (0.2:ℚ) / 100 ∧
     (calculate_insurance 15000 ⟨8, 2, 0.5, 0.2, 0, 7⟩).maternityAmount
        = 15000 * (0:ℚ) / 100 ∧
     (calculate_insurance 15000 ⟨8, 2, 0.5, 0.2, 0, 7⟩).housingAmount
        = 15000 * (7:ℚ) / 100) ∧
    (0 ≤ (calculate_insurance 15000 ⟨8, 2, 0.5, 0.2, 0, 7⟩).pensionAmount ∧
     0 ≤ (calculate_insurance 15000 ⟨8, 2, 0.5, 0.2, 0, 7⟩).medicalAmount ∧
     0 ≤ (calculate_insurance 15000 ⟨8, 2, 0.5, 0.2, 0, 7⟩).unemploymentAmount ∧
     0 ≤ (calculate_insurance 15000 ⟨8, 2, 0.5, 0.2, 0, 7⟩).injuryAmount ∧
     0 ≤ (calculate_insurance 15000 ⟨8, 2, 0.5, 0.2, 0, 7⟩).maternityAmount ∧
     0 ≤ (calculate_insurance 15000 ⟨8, 2, 0.5, 0.2, 0, 7⟩).housingAmount) :=
  calculate_insurance_spec 15000 ⟨8, 2, 0.5, 0.2, 0, 7⟩ (by norm_num)
    (by norm_num) (by norm_num) (by norm_num) (by norm_num) (by norm_num)
    (by norm_num)

set_option maxHeartbeats 2000000 in
/-- C4: `calculate_tax` is monotonically non-decreasing: `x ≤ y` implies
`calculate_tax x ≤ calculate_tax y`, including pairs straddling bracket
boundaries. -/
theorem calculate_tax_monotone (x y : ℚ) (hxy : x ≤ y) :
    calculate_tax x ≤ calculate_tax y := by
  rw [calculate_tax_eq x, calculate_tax_eq y]
  split_ifs <;> linarith

/-- Witness for C4 across the 12000 boundary. -/
theorem calculate_tax_monotone_witness :
    calculate_tax 11000 ≤ calculate_tax 13000 :=
  calculate_tax_monotone 11000 13000 (by norm_num)

/-- C5: at each finite bracket boundary `TAX_BRACKETS[i]`, `i = 1..6`, the
tier applying at or below the boundary and the tier applying just above it
yield the same tax amount, so the tax function is continuous there. -/
theorem tax_continuous_at_boundaries :
    ∀ i ∈ ([1, 2, 3, 4, 5, 6] : List ℕ),
      TAX_BRACKETS.getD i 0 * TAX_RATES.getD (i - 1) 0 - TAX_DEDUCTIONS.getD (i - 1) 0
        = TAX_BRACKETS.getD i 0 * TAX_RATES.getD i 0 - TAX_DEDUCTIONS.getD i 0 := by
  intro i hi
  fin_cases hi <;>
    norm_num [TAX_BRACKETS, TAX_RATES, TAX_DEDUCTIONS, List.getD]

/-- Witness for C5 at the boundary 80000 (index 6). -/
theorem tax_continuous_at_boundaries_witness :
    6 ∈ ([1, 2, 3, 4, 5, 6] : List ℕ) ∧
    TAX_BRACKETS.getD 6 0 * TAX_RATES.getD 5 0 - TAX_DEDUCTIONS.getD 5 0
      = TAX_BRACKETS.getD 6 0 * TAX_RATES.getD 6 0 - TAX_DEDUCTIONS.getD 6 0 :=
  ⟨by simp, tax_continuous_at_boundaries 6 (by simp)⟩

/-- C6: whenever the derived taxable income is `≤ 0`, the computed income
tax is exactly `0`, and in particular never negative. -/
theorem income_tax_zero_of_nonpos (base : ℚ) (rates : RateSet) (special : ℚ)
    (h : taxable_income base rates special ≤ 0) :
    income_tax base rates special = 0 ∧ 0 ≤ income_tax base rates special := by
  have hz : ¬ taxable_income base rates special > 0 := not_lt.mpr h
  constructor
  · rw [income_tax, if_neg hz]
  · rw [income_tax, if_neg hz]

/-- Witness for C6: base salary 0 with all-zero rates and zero special
deduction gives taxable income 0 and income tax 0. -/
theorem income_tax_zero_of_nonpos_witness :
    taxable_income 0 ⟨0, 0, 0, 0, 0, 0⟩ 0 ≤ 0 ∧
    (income_tax 0 ⟨0, 0, 0, 0, 0, 0⟩ 0 = 0 ∧
      0 ≤ income_tax 0 ⟨0, 0, 0, 0, 0, 0⟩ 0) :=
  ⟨by norm_num [taxable_income, total_insurance, calculate_insurance,
      InsuranceBreakdown.values, max_le_iff],
   income_tax_zero_of_nonpos 0 ⟨0, 0, 0, 0, 0, 0⟩ 0
     (by norm_num [taxable_income, total_insurance, calculate_insurance,
        InsuranceBreakdown.values, max_le_iff])⟩

/-- C7: for base salary `b ≥ 0` and any rate set, the sum of the six
insurance amounts equals `b × (sum of the six rates) / 100` exactly over the
rationals. -/
theorem total_insurance_eq_sum_rates (base : ℚ) (rates : RateSet)
    (hb : 0 ≤ base) :
    total_insurance base rates
      = base * (rates.pension + rates.medical + rates.unemployment
          + rates.injury + rates.maternity + rates.housing) / 100 := by
  simp only [total_insurance, calculate_insurance, InsuranceBreakdown.values,
    List.sum_cons, List.sum_nil]
  ring

/-- Witness for C7 at base 15000 and the Shanghai preset rates. -/
theorem total_insurance_eq_sum_rates_witness :
    (0:ℚ) ≤ 15000 ∧
    total_insurance 15000 ⟨8, 2, 0.5, 0.2, 0, 7⟩
      = 15000 * ((8:ℚ) + 2 + 0.5 + 0.2 + 0 + 7) / 100 :=
  ⟨by norm_num, total_insurance_eq_sum_rates 15000 ⟨8, 2, 0.5, 0.2, 0, 7⟩ (by norm_num)⟩

/-- C8: the worked example: base 15000, Shanghai preset rates, special
deduction 0 yield total insurance 2655, taxable income 7345, displayed rate
10% and quick deduction 210, income tax 524.50 and net salary 11820.50. -/
theorem worked_example_pipeline :
    total_insurance 15000 ⟨8, 2, 0.5, 0.2, 0, 7⟩ = 2655 ∧
    taxable_income 15000 ⟨8, 2, 0.5, 0.2, 0, 7⟩ 0 = 7345 ∧
    tax_rate (taxable_income 15000 ⟨8, 2, 0.5, 0.2, 0, 7⟩ 0) = 10/100 ∧
    tax_deduction (taxable_income 15000 ⟨8, 2, 0.5, 0.2, 0, 7⟩ 0) = 210 ∧
    income_tax 15000 ⟨8, 2, 0.5, 0.2, 0, 7⟩ 0 = 524.5 ∧
    net_salary 15000 ⟨8, 2, 0.5, 0.2, 0, 7⟩ 0 = 11820.5 := by
  have h1 : total_insurance 15000 ⟨8, 2, 0.5, 0.2, 0, 7⟩ = 2655 := by
    norm_num [total_insurance, calculate_insurance, InsuranceBreakdown.values]
  have harith : (15000:ℚ) - 2655 - 5000 - 0 = 7345 := by norm_num
  have h2 : taxable_income 15000 ⟨8, 2, 0.5, 0.2, 0, 7⟩ 0 = 7345 := by
    rw [taxable_income, h1, harith, max_eq_right]
    norm_num
  have h5 : income_tax 15000 ⟨8, 2, 0.5, 0.2, 0, 7⟩ 0 = 524.5 := by
    rw [income_tax, h2, if_pos (by norm_num : (7345:ℚ) > 0), calculate_tax_eq]
    norm_num
  refine ⟨h1, h2, ?_, ?_, h5, ?_⟩
  · rw [h2, tax_rate_eq]
    norm_num
  · rw [h2, tax_deduction_eq]
    norm_num
  · rw [net_salary, h1, h5]
    norm_num

/-- C9: the three displayed components always partition the base salary:
`net_salary + total_insurance + income_tax = base` for every input. -/
theorem salary_partition (base : ℚ) (rates : RateSet) (special : ℚ) :
    net_salary base rates special + total_insurance base rates
      + income_tax base rates special = base := by
  rw [net_salary]
  ring

/-- C10: for taxable income `x > 0`, the display-side rate and
quick-deduction lookups agree with the bracket used inside `calculate_tax`:
`calculate_tax x = x × tax_rate x − tax_deduction x`. -/
theorem display_lookup_consistent (x : ℚ) (hx : 0 < x) :
    calculate_tax x = x * tax_rate x - tax_deduction x := by
  rw [calculate_tax_eq, tax_rate_eq, tax_deduction_eq]
  split_ifs <;> ring

/-- Witness for C10 at taxable income 7345. -/
theorem display_lookup_consistent_witness :
    (0:ℚ) < 7345 ∧ calculate_tax 7345 = 7345 * tax_rate 7345 - tax_deduction 7345 :=
  ⟨by norm_num, display_lookup_consistent 7345 (by norm_num)⟩

end SalaryCalculator
